import Mathlib

/-!
Verification of the HLS downloader in `elonet-dl.py` against its
natural-language specification.

The Python source is shallowly embedded: every pure string manipulation of
the script is translated into an executable Lean function, and the effectful
pipeline (`download_video`, `main`) is translated into pure functions over an
explicit environment (`Env`, `MainEnv`) holding the HTTP oracle, the
`urllib.parse.urljoin` library function, the regex search oracle, and the
final state of the filesystem.  Python exceptions are modelled with
`Except String`; observable side effects (HTTP requests, writes to the
ffmpeg process's stdin, warnings, error prints) are recorded in an event
trace (`List Event`).

String primitives (`split`, `strip`, `startswith`, `endswith`, `int`) are
re-implemented over `List Char` by structural recursion so that all concrete
playlists evaluate inside the kernel (`rfl`/`decide`).
-/

set_option autoImplicit false

namespace ElonetDL

/-! ### Python string primitives -/

/-- `str.split(sep)` for a single-character separator: auxiliary loop
carrying the (reversed) characters of the current field. -/
def splitOnCharAux (sep : Char) : List Char → List Char → List String
  | [], acc => [String.mk acc.reverse]
  | c :: rest, acc =>
    if c = sep then String.mk acc.reverse :: splitOnCharAux sep rest []
    else splitOnCharAux sep rest (c :: acc)

/-- Python `s.split(sep)` for a one-character `sep` (the script only ever
splits on `"\n"`, `':'`, `','` and `'='`).  `"".split(sep) = [""]` and a
trailing separator yields a trailing empty field, as in Python. -/
def pySplit (sep : Char) (s : String) : List String :=
  splitOnCharAux sep s.toList []

/-- The lines of a playlist text, Python `text.split("\n")`. -/
def splitLines (s : String) : List String :=
  pySplit '\n' s

/-- Whitespace characters removed by Python `str.strip()`. -/
def isPyWs (c : Char) : Bool :=
  c = ' ' ∨ c = '\t' ∨ c = '\n' ∨ c = '\r' ∨ c = '\x0b' ∨ c = '\x0c'

/-- Python `s.strip()`. -/
def pyStrip (s : String) : String :=
  String.mk (((s.toList.dropWhile isPyWs).reverse.dropWhile isPyWs).reverse)

/-- Prefix test on character lists (structural recursion, so that it
reduces definitionally even with variable tails). -/
def charsPre : List Char → List Char → Bool
  | [], _ => true
  | _ :: _, [] => false
  | a :: as, b :: bs => a == b && charsPre as bs

/-- Python `s.startswith(pre)`. -/
def pyStartsWith (s pre : String) : Bool :=
  charsPre pre.toList s.toList

/-- Python `s.endswith(suf)`: a suffix is a prefix of the reversal. -/
def pyEndsWith (s suf : String) : Bool :=
  charsPre suf.toList.reverse s.toList.reverse

/-- Decimal digit test (ASCII `'0'`–`'9'`). -/
def isDigitChar (c : Char) : Bool :=
  48 ≤ c.toNat ∧ c.toNat ≤ 57

/-- Accumulate the value of a digit string. -/
def digitsToNat : List Char → Nat → Nat
  | [], acc => acc
  | c :: rest, acc => digitsToNat rest (acc * 10 + (c.toNat - 48))

/-- A non-empty all-digit character list. -/
def digitsOk (l : List Char) : Bool :=
  !l.isEmpty && l.all isDigitChar

/-- Python `int(s)` on a string: optional sign, decimal digits, surrounding
whitespace allowed; anything else raises `ValueError`. -/
def pyInt (s : String) : Except String Int :=
  match (pyStrip s).toList with
  | '-' :: r =>
    if digitsOk r then Except.ok (-(Int.ofNat (digitsToNat r 0)))
    else Except.error ("invalid literal for int with base 10: " ++ s)
  | '+' :: r =>
    if digitsOk r then Except.ok (Int.ofNat (digitsToNat r 0))
    else Except.error ("invalid literal for int with base 10: " ++ s)
  | t =>
    if digitsOk t then Except.ok (Int.ofNat (digitsToNat t 0))
    else Except.error ("invalid literal for int with base 10: " ++ s)

/-- Contiguous-sublist test on character lists, for Python's `sub in s`. -/
def listHasSeg (needle : List Char) : List Char → Bool
  | [] => needle.isEmpty
  | c :: rest => charsPre needle (c :: rest) || listHasSeg needle rest

/-- Python `sub in s` for strings. -/
def pyIn (sub s : String) : Bool :=
  listHasSeg sub.toList s.toList

/-! ### `sanitize_filename` (source lines 11–18) -/

/-- The character class of `re.sub(r'[\\/:*?"<>|]', '_', name)`. -/
def invalidChar (c : Char) : Bool :=
  ['\\', '/', ':', '*', '?', '"', '<', '>', '|'].contains c

/-- Replacement applied to a single character by the `re.sub` call. -/
def sanChar (c : Char) : Char :=
  if invalidChar c then '_' else c

/-- `sanitize_filename`: replace every invalid character by `'_'`, then
prefix `'_'` if the (replaced) name starts with a dot. -/
def sanitize_filename (name : String) : String :=
  let n := String.mk (name.toList.map sanChar)
  if pyStartsWith n "." then "_" ++ n else n

/-! ### `determine_site_type` (source lines 97–105) -/

def determine_site_type (url : String) : String :=
  if pyIn "elonetplus.fi" url then "elonetplus"
  else if pyIn "elonet.finna.fi" url || pyIn "finna.fi" url then "finna"
  else "elonetplus"

/-! ### Data model: HTTP responses, environment, event traces -/

/-- A `requests` response; `text` doubles as the binary `content` for
segment downloads (both are the payload of the response). -/
structure HttpResponse where
  status : Nat
  text : String
deriving DecidableEq, Repr

/-- Observable effects of the pipeline, in order of occurrence. -/
inductive Event where
  /-- A `requests.get(url)` call. -/
  | httpGet (url : String)
  /-- The per-segment warning printed on a non-200 segment response. -/
  | warn (url : String)
  /-- `Popen` of the ffmpeg remux process writing to `name`. -/
  | launchMux (name : String)
  /-- `proc.stdin.write` of one segment payload. -/
  | writeSeg (content : String)
  /-- Closing the process stdin / waiting for exit (end of the `with` block). -/
  | closeMux
  /-- An error message printed to the console. -/
  | printErr (msg : String)
  /-- A success message printed to the console. -/
  | printOk (msg : String)
deriving DecidableEq, Repr

/-- Environment of `download_video`: the HTTP world, the
`urllib.parse.urljoin` library function, the `re.search` m3u8-URL scan of
the embed page (a library regex engine, abstracted as an oracle returning
the first match, if any), and the size of each file after the mux process
has finished (`none` = file does not exist).  An `Except.error` from
`http` models a raised transport exception. -/
structure Env where
  http : String → Except String HttpResponse
  urljoin : String → String → String
  searchM3u8 : String → Option String
  fileSize : String → Option Nat

/-! ### Master-playlist variant selection (source lines 126–148) -/

/-- `dict(...)` built from `attr.split('=')` for each comma-separated
`attr` containing `'='`; an attribute splitting into more or fewer than two
parts raises `ValueError`, as `dict` does on a malformed pair. -/
def attrPairs : List String → Except String (List (String × String))
  | [] => Except.ok []
  | a :: rest =>
    if a.toList.contains '=' then
      match pySplit '=' a with
      | [k, v] =>
        match attrPairs rest with
        | Except.error e => Except.error e
        | Except.ok ps => Except.ok ((k, v) :: ps)
      | _ => Except.error "dictionary update sequence element has invalid length"
    else attrPairs rest

/-- Python `dict` lookup: with duplicate keys the last binding wins. -/
def dictGet (ps : List (String × String)) (k : String) : Option String :=
  match ps.reverse.find? (fun p => p.1 == k) with
  | some p => some p.2
  | none => none

/-- `int(attrs.get('BANDWIDTH', 0))` over the attribute text after the
first colon: a missing key yields the integer default `0`; a present value
goes through `int(...)` and may raise. -/
def bandwidthOfAttrs (s : String) : Except String Int :=
  match attrPairs (pySplit ',' s) with
  | Except.error e => Except.error e
  | Except.ok ps =>
    match dictGet ps "BANDWIDTH" with
    | none => Except.ok 0
    | some v => pyInt v

/-- Bandwidth extracted from one `#EXT-X-STREAM-INF:` line:
`prev_line.split(':')[1]` then the attribute parse.  The index access is
guarded in the source by the `startswith` check, so a second field always
exists. -/
def getBandwidth (line : String) : Except String Int :=
  bandwidthOfAttrs ((pySplit ':' line).getD 1 "")

/-- The inner `for prev_line in reversed(playlist_resp.text.split("\n"))`
loop: it scans the WHOLE playlist text reversed (not merely the lines
preceding the current variant line) and stops at the first line starting
with the stream-inf tag, i.e. the last such line of the file.  `none`
models `bandwidth` remaining Python `None`. -/
def innerScan (text : String) : Except String (Option Int) :=
  match (splitLines text).reverse.find? (fun l => pyStartsWith l "#EXT-X-STREAM-INF:") with
  | none => Except.ok none
  | some prev =>
    match getBandwidth prev with
    | Except.error e => Except.error e
    | Except.ok b => Except.ok (some b)

/-- The outer selection loop over the playlist lines, carrying
`best_quality_url` and `best_bandwidth`.  A stripped line that is empty or
a comment is skipped; a line ending in `.m3u8` runs the inner scan and is
selected when the found bandwidth is truthy and strictly greater than the
best so far. -/
def selectGo (uj : String → String → String) (url text : String) :
    List String → Option String → Int → Except String (Option String × Int)
  | [], best, bw => Except.ok (best, bw)
  | l :: rest, best, bw =>
    let line := pyStrip l
    if line = "" ∨ pyStartsWith line "#" then selectGo uj url text rest best bw
    else if pyEndsWith line ".m3u8" then
      match innerScan text with
      | Except.error e => Except.error e
      | Except.ok none => selectGo uj url text rest best bw
      | Except.ok (some b) =>
        if b ≠ 0 ∧ b > bw then selectGo uj url text rest (some (uj url line)) b
        else selectGo uj url text rest best bw
    else selectGo uj url text rest best bw

/-- Master-playlist scan of `download_video` (source lines 127–148):
returns the selected variant URL (if any) and the final `best_bandwidth`. -/
def selectVariant (uj : String → String → String) (url text : String) :
    Except String (Option String × Int) :=
  selectGo uj url text (splitLines text) none 0

/-! ### Media-playlist segment collection (source lines 161–165) -/

/-- The `ts_files` list comprehension: every raw line whose stripped form
ends in `.ts` (no comment check), joined raw against the base URL, in file
order. -/
def ts_files (uj : String → String → String) (base text : String) : List String :=
  ((splitLines text).filter (fun l => pyEndsWith (pyStrip l) ".ts")).map (fun l => uj base l)

/-- The base URL `best_quality_url or url` and the playlist text actually
used, bundled: the segment list `download_video` computes. -/
def tsListOf (env : Env) (bestUrl : Option String) (url text : String) : List String :=
  ts_files env.urljoin (bestUrl.getD url) text

/-! ### Segment fetch + mux loop (source lines 170–180) -/

/-- The `for i, ts in enumerate(ts_files, 1)` loop inside the `Popen`
context: fetch each segment; on HTTP 200 write its payload to the process
stdin, otherwise print a warning and continue; a raised transport
exception aborts the loop (and is caught by the outer `try`). -/
def segmentLoop (env : Env) : List String → Except String Unit × List Event
  | [] => (Except.ok (), [])
  | ts :: rest =>
    match env.http ts with
    | Except.error e => (Except.error e, [Event.httpGet ts])
    | Except.ok r =>
      if r.status = 200 then
        ((segmentLoop env rest).1,
          Event.httpGet ts :: Event.writeSeg r.text :: (segmentLoop env rest).2)
      else
        ((segmentLoop env rest).1,
          Event.httpGet ts :: Event.warn ts :: (segmentLoop env rest).2)

/-- `os.path.exists(name) and os.path.getsize(name) > 0`. -/
def fileOk (env : Env) (name : String) : Bool :=
  match env.fileSize name with
  | some sz => decide (0 < sz)
  | none => false

/-- Tail of `download_video` from the empty-playlist check onwards
(source lines 167–187): raise if no `.ts` line was found, otherwise launch
the mux process, run the segment loop, close the process, and decide
success by the file check. -/
def finish (env : Env) (bestUrl : Option String) (url text name : String)
    (tr : List Event) : Except String Bool × List Event :=
  if tsListOf env bestUrl url text = [] then
    (Except.error "No TS files found in playlist", tr)
  else
    match (segmentLoop env (tsListOf env bestUrl url text)).1 with
    | Except.error e =>
      (Except.error e,
        tr ++ [Event.launchMux name] ++ (segmentLoop env (tsListOf env bestUrl url text)).2
          ++ [Event.closeMux])
    | Except.ok _ =>
      if fileOk env name then
        (Except.ok true,
          tr ++ [Event.launchMux name] ++ (segmentLoop env (tsListOf env bestUrl url text)).2
            ++ [Event.closeMux, Event.printOk ("Successfully downloaded: " ++ name)])
      else
        (Except.ok false,
          tr ++ [Event.launchMux name] ++ (segmentLoop env (tsListOf env bestUrl url text)).2
            ++ [Event.closeMux, Event.printErr ("Failed to create output file: " ++ name)])

/-! ### Embed-page unwrap (source lines 110–119) -/

/-- The `if not url.endswith('.m3u8')` unwrap step: a direct playlist URL
is passed through with no network call; otherwise the page is fetched and
scanned for the first m3u8 URL. -/
def resolveStep (env : Env) (url : String) : Except String String × List Event :=
  if pyEndsWith url ".m3u8" then (Except.ok url, [])
  else
    match env.http url with
    | Except.error e => (Except.error e, [Event.httpGet url])
    | Except.ok resp =>
      if resp.status ≠ 200 then
        (Except.error "Failed to retrieve embed page", [Event.httpGet url])
      else
        match env.searchM3u8 resp.text with
        | none => (Except.error "Could not find m3u8 playlist URL in embed page", [Event.httpGet url])
        | some u => (Except.ok u, [Event.httpGet url])

/-! ### `download_video` (source lines 107–190) -/

/-- The body of `download_video`'s `try` block: unwrap the embed page,
fetch the playlist, run the master-variant scan, possibly re-fetch the
chosen variant playlist (falling back to the original text when no variant
was selected), then collect segments and run the fetch/mux loop. -/
def downloadBody (env : Env) (url name : String) : Except String Bool × List Event :=
  match (resolveStep env url).1 with
  | Except.error e => (Except.error e, (resolveStep env url).2)
  | Except.ok url1 =>
    match env.http url1 with
    | Except.error e => (Except.error e, (resolveStep env url).2 ++ [Event.httpGet url1])
    | Except.ok presp =>
      if presp.status ≠ 200 then
        (Except.error "Failed to retrieve playlist", (resolveStep env url).2 ++ [Event.httpGet url1])
      else
        match selectVariant env.urljoin url1 presp.text with
        | Except.error e => (Except.error e, (resolveStep env url).2 ++ [Event.httpGet url1])
        | Except.ok (some bu, _) =>
          match env.http bu with
          | Except.error e =>
            (Except.error e, (resolveStep env url).2 ++ [Event.httpGet url1, Event.httpGet bu])
          | Except.ok tsresp =>
            if tsresp.status ≠ 200 then
              (Except.error "Failed to retrieve TS playlist",
                (resolveStep env url).2 ++ [Event.httpGet url1, Event.httpGet bu])
            else
              finish env (some bu) url1 tsresp.text name
                ((resolveStep env url).2 ++ [Event.httpGet url1, Event.httpGet bu])
        | Except.ok (none, _) =>
          finish env none url1 presp.text name ((resolveStep env url).2 ++ [Event.httpGet url1])

/-- `download_video` itself: the `try`/`except Exception` wrapper turns
every raised error into a printed message and the return value `False`. -/
def download_video (env : Env) (url name : String) : Bool × List Event :=
  match downloadBody env url name with
  | (Except.ok b, tr) => (b, tr)
  | (Except.error e, tr) => (false, tr ++ [Event.printErr ("Error during download: " ++ e)])

/-! ### `main` (source lines 192–227) -/

/-- Environment of `main`: the page fetch and the two site extractors
(`process_elonetplus` / `process_finna`, which operate on the
BeautifulSoup DOM — external collaborators, modelled as oracles returning
a `(name, videoUrl)` pair or a raised `ValueError`). -/
structure MainEnv where
  pageHttp : String → Except String HttpResponse
  extractElonetplus : Except String (String × String)
  extractFinna : Except String (String × String)
  dlEnv : Env

/-- Dispatch on `determine_site_type`. -/
def extractFor (menv : MainEnv) (url : String) : Except String (String × String) :=
  if determine_site_type url = "elonetplus" then menv.extractElonetplus
  else menv.extractFinna

/-- `main`: returns the process exit code together with the event trace.
Non-200 page → print + exit 1; a raised `ValueError`/`Exception` → print +
exit 1; otherwise the exit code mirrors `download_video`'s boolean. -/
def main_run (menv : MainEnv) (url : String) : Nat × List Event :=
  match menv.pageHttp url with
  | Except.error e => (1, [Event.printErr ("Unexpected error: " ++ e)])
  | Except.ok resp =>
    if resp.status ≠ 200 then (1, [Event.printErr "Failed to retrieve the page"])
    else
      match extractFor menv url with
      | Except.error e => (1, [Event.printErr ("Error: " ++ e)])
      | Except.ok (name, videoUrl) =>
        ((if (download_video menv.dlEnv videoUrl name).1 then 0 else 1),
          (download_video menv.dlEnv videoUrl name).2)

/-! ### Trace observations -/

/-- The segment payloads written to the mux process, in order. -/
def writesOf : List Event → List String
  | [] => []
  | Event.writeSeg c :: tr => c :: writesOf tr
  | _ :: tr => writesOf tr

/-- The segment URLs for which a warning was printed, in order. -/
def warnsOf : List Event → List String
  | [] => []
  | Event.warn u :: tr => u :: warnsOf tr
  | _ :: tr => warnsOf tr

/-- `true` on `Except.ok`. -/
def exceptOk {ε α : Type} : Except ε α → Bool
  | Except.ok _ => true
  | Except.error _ => false

/-- The payload a segment URL contributes to the output: its response text
when the fetch succeeds with status 200, nothing otherwise. -/
def succContent (env : Env) (ts : String) : Option String :=
  match env.http ts with
  | Except.ok r => if r.status = 200 then some r.text else none
  | Except.error _ => none

/-- A segment fetch that returned (without raising) a non-200 status. -/
def failedSeg (env : Env) (ts : String) : Bool :=
  match env.http ts with
  | Except.ok r => decide (r.status ≠ 200)
  | Except.error _ => false

/-! ### Concrete data used for witnesses and counterexamples -/

/-- A concrete stand-in for `urljoin` at fully concrete inputs (the claims
under test constrain which lines are joined and in which order, not the
join algorithm itself, which is library code). -/
def ujSlash : String → String → String := fun base rel => base ++ "/" ++ rel

/-- An environment with trivially successful responses. -/
def envTriv : Env :=
  { http := fun _ => Except.ok ⟨200, ""⟩
    urljoin := ujSlash
    searchM3u8 := fun _ => none
    fileSize := fun _ => none }

/-- A master playlist with variants of bandwidths 500, 2000, 1200 in that
listing order. -/
def masterText : String :=
  "#EXTM3U\n#EXT-X-STREAM-INF:BANDWIDTH=500\nlow.m3u8\n#EXT-X-STREAM-INF:BANDWIDTH=2000\nhigh.m3u8\n#EXT-X-STREAM-INF:BANDWIDTH=1200\nmid.m3u8"

/-! ### C1 -/

/-- C1 (refuted, code bug): on a master playlist listing bandwidths
500, 2000, 1200 in that order, the inner scan pairs EVERY variant line
with the bandwidth of the last `#EXT-X-STREAM-INF:` line of the file
(1200, not the nearest preceding tag), and the selection therefore picks
the FIRST variant URL line — `low.m3u8`, the 500-tagged variant — rather
than the 2000-tagged variant the claim requires. -/
theorem C1_last_tag_first_variant :
    innerScan masterText = Except.ok (some 1200) ∧
    selectVariant ujSlash "http://h/master.m3u8" masterText =
      Except.ok (some "http://h/master.m3u8/low.m3u8", 1200) :=
  ⟨rfl, rfl⟩

/-! ### C3 -/

/-- The segment-collection rule as the specification words it: every
non-comment, non-blank line ending in `.ts`, resolved against the playlist
URL, in file order. -/
def specMediaSegments (uj : String → String → String) (base text : String) : List String :=
  ((splitLines text).filter
      (fun l => !pyStartsWith (pyStrip l) "#" && !(pyStrip l == "") && pyEndsWith (pyStrip l) ".ts")).map
    (fun l => uj base l)

/-- C3 counterexample: a comment line ending in `.ts` is collected by the
code (the comprehension has no comment check) but excluded by the claim's
"non-comment" qualifier. -/
theorem C3_counterexample :
    ts_files ujSlash "http://h/p.m3u8" "#hidden.ts\nseg1.ts" ≠
      specMediaSegments ujSlash "http://h/p.m3u8" "#hidden.ts\nseg1.ts" := by
  decide

/-- The amended collection rule as a single forward scan: keep each line
whose stripped form ends in `.ts` — comment lines included — resolving the
raw line, preserving order, never deduplicating. -/
def collectSegments (uj : String → String → String) (base : String) : List String → List String
  | [] => []
  | l :: rest =>
    if pyEndsWith (pyStrip l) ".ts" then uj base l :: collectSegments uj base rest
    else collectSegments uj base rest

/-- C3 (amended): for every playlist text the code's segment list is
exactly the order-preserving scan collecting each line whose stripped form
ends in `.ts` (comments included), resolved against the playlist's own
URL, with no reordering and no deduplication. -/
theorem C3_segments_in_order (uj : String → String → String) (base text : String) :
    ts_files uj base text = collectSegments uj base (splitLines text) := by
  unfold ts_files
  generalize splitLines text = L
  induction L with
  | nil => rfl
  | cons l rest ih =>
    by_cases h : pyEndsWith (pyStrip l) ".ts" = true
    · simp [collectSegments, List.filter_cons, h, ih]
    · simp [collectSegments, List.filter_cons, h, ih]

/-! ### C7 -/

/-- C7: a source URL already ending in `.m3u8` is resolved to itself with
an empty event trace — in particular, no HTTP request is issued for the
embed-page unwrap step. -/
theorem C7_resolve_identity (env : Env) (url : String)
    (h : pyEndsWith url ".m3u8" = true) :
    resolveStep env url = (Except.ok url, []) := by
  simp [resolveStep, h]

/-- C7 witness: the identity resolution at a concrete direct playlist URL. -/
theorem C7_witness :
    pyEndsWith "http://h/a.m3u8" ".m3u8" = true ∧
    resolveStep envTriv "http://h/a.m3u8" = (Except.ok "http://h/a.m3u8", []) :=
  ⟨by decide, C7_resolve_identity envTriv "http://h/a.m3u8" (by decide)⟩

/-! ### C8 -/

/-- Replacing invalid characters does not create or destroy a leading dot:
`'.'` is not an invalid character and is never the replacement character. -/
theorem sanStartsWithDot (name : String) :
    pyStartsWith (String.mk (name.toList.map sanChar)) "." = pyStartsWith name "." := by
  obtain ⟨l⟩ := name
  cases l with
  | nil => rfl
  | cons c cs =>
    show (('.' == sanChar c) && true) = (('.' == c) && true)
    by_cases hc : c = '.'
    · subst hc; rfl
    · have h1 : ('.' == c) = false := beq_eq_false_iff_ne.mpr fun h => hc h.symm
      by_cases hi : invalidChar c = true
      · have h2 : sanChar c = '_' := by simp [sanChar, hi]
        rw [h1, h2]
        decide
      · have h2 : sanChar c = c := by simp [sanChar, hi]
        rw [h2, h1]

/-- C8: sanitization replaces each invalid filesystem character with an
underscore and prefixes an underscore exactly when the name starts with a
dot: concretely `"A/B:C"` becomes `"A_B_C"` and `".x"` becomes `"_.x"`,
and in general the output characters are an optional leading underscore
followed by the per-character replacement of the input. -/
theorem C8_sanitize :
    sanitize_filename "A/B:C" = "A_B_C" ∧
    sanitize_filename ".x" = "_.x" ∧
    ∀ name, (sanitize_filename name).toList =
      (if pyStartsWith name "." then ['_'] else []) ++ name.toList.map sanChar := by
  refine ⟨rfl, rfl, fun name => ?_⟩
  show (if pyStartsWith (String.mk (name.toList.map sanChar)) "." then
      "_" ++ String.mk (name.toList.map sanChar)
    else String.mk (name.toList.map sanChar)).toList = _
  rw [sanStartsWithDot]
  by_cases hd : pyStartsWith name "." = true
  · simp only [hd, if_true]
    rfl
  · simp only [hd, if_false, Bool.false_eq_true]
    rfl

/-! ### Segment-loop lemmas -/

theorem writesOf_append (a b : List Event) :
    writesOf (a ++ b) = writesOf a ++ writesOf b := by
  induction a with
  | nil => rfl
  | cons e tr ih => cases e <;> simp [writesOf, ih]

theorem warnsOf_append (a b : List Event) :
    warnsOf (a ++ b) = warnsOf a ++ warnsOf b := by
  induction a with
  | nil => rfl
  | cons e tr ih => cases e <;> simp [warnsOf, ih]

/-- When no segment fetch raises, the loop completes, the payloads written
to the mux process are exactly the 200-responses in sequence order, and
the warned URLs are exactly the non-200 segments in sequence order. -/
theorem segmentLoop_ok (env : Env) (segs : List String)
    (h : ∀ ts ∈ segs, exceptOk (env.http ts) = true) :
    (segmentLoop env segs).1 = Except.ok () ∧
    writesOf (segmentLoop env segs).2 = segs.filterMap (succContent env) ∧
    warnsOf (segmentLoop env segs).2 = segs.filter (failedSeg env) := by
  induction segs with
  | nil => exact ⟨rfl, rfl, rfl⟩
  | cons ts rest ih =>
    have hts : exceptOk (env.http ts) = true := h ts (List.mem_cons_self ts rest)
    obtain ⟨h1, h2, h3⟩ := ih (fun t ht => h t (List.mem_cons_of_mem ts ht))
    cases hh : env.http ts with
    | error e => rw [hh] at hts; simp [exceptOk] at hts
    | ok r =>
      by_cases hs : r.status = 200
      · refine ⟨?_, ?_, ?_⟩ <;>
          simp [segmentLoop, hh, hs, writesOf, warnsOf, h1, h2, h3,
            List.filterMap_cons, List.filter_cons, succContent, failedSeg]
      · refine ⟨?_, ?_, ?_⟩ <;>
          simp [segmentLoop, hh, hs, writesOf, warnsOf, h1, h2, h3,
            List.filterMap_cons, List.filter_cons, succContent, failedSeg]

/-! ### C2 -/

/-- C2: when every segment fetch returns (no transport exception), a non-200
segment is only warned about and skipped: the pipeline tail completes with
the file-based boolean (true whenever the output file is non-empty), the
payloads written to the mux process are exactly the successfully fetched
segments in sequence order, and the warnings are exactly the failed
segments — one bad segment never aborts the job. -/
theorem C2_bad_segment_tolerated (env : Env) (bestUrl : Option String)
    (u text name : String) (tr : List Event)
    (hall : ∀ ts ∈ tsListOf env bestUrl u text, exceptOk (env.http ts) = true)
    (hne : tsListOf env bestUrl u text ≠ []) :
    (finish env bestUrl u text name tr).1 = Except.ok (fileOk env name) ∧
    writesOf (finish env bestUrl u text name tr).2 =
      writesOf tr ++ (tsListOf env bestUrl u text).filterMap (succContent env) ∧
    warnsOf (finish env bestUrl u text name tr).2 =
      warnsOf tr ++ (tsListOf env bestUrl u text).filter (failedSeg env) := by
  obtain ⟨h1, h2, h3⟩ := segmentLoop_ok env (tsListOf env bestUrl u text) hall
  by_cases hf : fileOk env name = true <;>
    refine ⟨?_, ?_, ?_⟩ <;>
      simp [finish, hne, h1, hf, writesOf_append, warnsOf_append, h2, h3, writesOf, warnsOf]

/-- A media playlist of five segments at base URL `"B"`. -/
def textC2 : String := "s1.ts\ns2.ts\ns3.ts\ns4.ts\ns5.ts"

/-- Environment in which segment 2 of 5 answers HTTP 404 and every other
segment succeeds; the output file ends up non-empty (size 10). -/
def envC2 : Env :=
  { http := fun u =>
      if u = "B/s2.ts" then Except.ok ⟨404, "c2"⟩
      else if u = "B/s1.ts" then Except.ok ⟨200, "c1"⟩
      else if u = "B/s3.ts" then Except.ok ⟨200, "c3"⟩
      else if u = "B/s4.ts" then Except.ok ⟨200, "c4"⟩
      else if u = "B/s5.ts" then Except.ok ⟨200, "c5"⟩
      else Except.ok ⟨200, ""⟩
    urljoin := ujSlash
    searchM3u8 := fun _ => none
    fileSize := fun _ => some 10 }

/-- C2 witness: with segment 2 of 5 returning 404, segments 1, 3, 4, 5 are
written in order and the run still reports success. -/
theorem C2_witness :
    (∀ ts ∈ tsListOf envC2 none "B" textC2, exceptOk (envC2.http ts) = true) ∧
    tsListOf envC2 none "B" textC2 ≠ [] ∧
    (tsListOf envC2 none "B" textC2).filterMap (succContent envC2) = ["c1", "c3", "c4", "c5"] ∧
    writesOf (finish envC2 none "B" textC2 "out.mp4" []).2 = ["c1", "c3", "c4", "c5"] ∧
    (finish envC2 none "B" textC2 "out.mp4" []).1 = Except.ok true := by
  have h := C2_bad_segment_tolerated envC2 none "B" textC2 "out.mp4" [] (by decide) (by decide)
  refine ⟨by decide, by decide, by decide, ?_, ?_⟩
  · rw [h.2.1]; decide
  · rw [h.1, show fileOk envC2 "out.mp4" = true from rfl]

/-! ### C4 -/

/-- C4: an empty resolved segment list makes the pipeline tail fail with
the playlist error while leaving the trace untouched (so no mux launch is
added), and a mux launch can appear in the tail's trace only when it was
already in the incoming trace or the segment list is non-empty. -/
theorem C4_no_mux_on_empty (env : Env) (bestUrl : Option String)
    (u text name : String) (tr : List Event) (nm : String) :
    (tsListOf env bestUrl u text = [] →
      finish env bestUrl u text name tr = (Except.error "No TS files found in playlist", tr)) ∧
    (Event.launchMux nm ∈ (finish env bestUrl u text name tr).2 →
      Event.launchMux nm ∈ tr ∨ tsListOf env bestUrl u text ≠ []) := by
  constructor
  · intro h; simp [finish, h]
  · intro hm
    by_cases he : tsListOf env bestUrl u text = []
    · left; simpa [finish, he] using hm
    · right; exact he

/-- C4 witness: a playlist with no `.ts` line fails with the playlist
error and an unchanged (mux-free) trace. -/
theorem C4_witness :
    tsListOf envTriv none "u" "" = [] ∧
    finish envTriv none "u" "" "out.mp4" [] =
      (Except.error "No TS files found in playlist", []) :=
  ⟨by decide, (C4_no_mux_on_empty envTriv none "u" "" "out.mp4" [] "out.mp4").1 (by decide)⟩

/-! ### C5 -/

/-- C5: once the segment list is non-empty and the segment loop completes,
the pipeline reports success exactly when the output file exists with
non-zero size — dropped segments notwithstanding. -/
theorem C5_success_iff_nonempty_file (env : Env) (bestUrl : Option String)
    (u text name : String) (tr : List Event)
    (hne : tsListOf env bestUrl u text ≠ [])
    (hloop : (segmentLoop env (tsListOf env bestUrl u text)).1 = Except.ok ()) :
    ((finish env bestUrl u text name tr).1 = Except.ok true ↔
      ∃ sz, env.fileSize name = some sz ∧ 0 < sz) := by
  have hiff : fileOk env name = true ↔ ∃ sz, env.fileSize name = some sz ∧ 0 < sz := by
    unfold fileOk
    cases hfs : env.fileSize name with
    | none => simp
    | some sz => simp
  rw [← hiff]
  by_cases hf : fileOk env name = true <;> simp [finish, hne, hloop, hf]

/-- C5 witness: a partial download (segment 2 dropped) with a non-empty
output file still reports success. -/
theorem C5_witness :
    tsListOf envC2 none "B" textC2 ≠ [] ∧
    (segmentLoop envC2 (tsListOf envC2 none "B" textC2)).1 = Except.ok () ∧
    (finish envC2 none "B" textC2 "out.mp4" []).1 = Except.ok true := by
  refine ⟨by decide, by rfl, ?_⟩
  exact (C5_success_iff_nonempty_file envC2 none "B" textC2 "out.mp4" []
    (by decide) (by rfl)).mpr ⟨10, rfl, by decide⟩

/-! ### C6 -/

/-- A master playlist whose single variant carries an unparsable
`BANDWIDTH` value, followed by a segment line. -/
def masterBadBw : String := "#EXT-X-STREAM-INF:BANDWIDTH=abc\nv.m3u8\nseg.ts"

/-- Environment serving `masterBadBw` as the playlist; the output file
would be non-empty, so a fallback-to-media run would succeed. -/
def envC6 : Env :=
  { http := fun u =>
      if u = "http://h/m.m3u8" then Except.ok ⟨200, masterBadBw⟩ else Except.ok ⟨200, ""⟩
    urljoin := ujSlash
    searchM3u8 := fun _ => none
    fileSize := fun _ => some 5 }

/-- C6 counterexample: a present-but-unparsable `BANDWIDTH` value is NOT
treated as 0 — `int('abc')` raises, the whole download aborts with
`false`, and no media-playlist fallback (and no mux launch) happens, even
though the playlist contains a usable segment line and the output file
would have been non-empty. -/
theorem C6_counterexample :
    getBandwidth "#EXT-X-STREAM-INF:BANDWIDTH=abc" =
      Except.error "invalid literal for int with base 10: abc" ∧
    download_video envC6 "http://h/m.m3u8" "out.mp4" =
      (false, [Event.httpGet "http://h/m.m3u8",
        Event.printErr "Error during download: invalid literal for int with base 10: abc"]) ∧
    Event.launchMux "out.mp4" ∉ (download_video envC6 "http://h/m.m3u8" "out.mp4").2 :=
  ⟨rfl, rfl, by decide⟩

/-- If this playlist's inner scan always reports bandwidth 0, no variant
is ever selected: the selection condition requires a truthy (non-zero)
bandwidth strictly above the running best of 0. -/
theorem selectGo_zero (uj : String → String → String) (url text : String)
    (h : innerScan text = Except.ok (some 0)) :
    ∀ L, selectGo uj url text L none 0 = Except.ok (none, 0) := by
  intro L
  induction L with
  | nil => rfl
  | cons l rest ih =>
    by_cases h1 : pyStrip l = "" ∨ pyStartsWith (pyStrip l) "#" = true
    · simp only [selectGo]
      rw [if_pos h1]
      exact ih
    · by_cases h2 : pyEndsWith (pyStrip l) ".m3u8" = true
      · simp only [selectGo]
        rw [if_neg h1, if_pos h2, h]
        simp only [ne_eq, not_true_eq_false, false_and, if_false]
        exact ih
      · simp only [selectGo]
        rw [if_neg h1, if_neg h2]
        exact ih

/-- Resolution is the identity on direct playlist URLs (helper shared by
several proofs). -/
theorem resolveStep_direct (env : Env) (url : String)
    (h : pyEndsWith url ".m3u8" = true) :
    resolveStep env url = (Except.ok url, []) := by
  simp [resolveStep, h]

/-- C6 (amended): a MISSING `BANDWIDTH` key yields the integer default 0
and an all-zero scan selects no variant; a present-but-unparsable
`BANDWIDTH` raises and aborts the whole download with return value
`false` (no fallback); and when the scan selects no variant without
raising, the originally fetched playlist text itself feeds the
media-segment pipeline. -/
theorem C6_amended :
    (∀ s ps, attrPairs (pySplit ',' s) = Except.ok ps → dictGet ps "BANDWIDTH" = none →
      bandwidthOfAttrs s = Except.ok 0) ∧
    (∀ uj url text, innerScan text = Except.ok (some 0) →
      selectVariant uj url text = Except.ok (none, 0)) ∧
    (∀ env url name text e, pyEndsWith url ".m3u8" = true →
      env.http url = Except.ok ⟨200, text⟩ →
      selectVariant env.urljoin url text = Except.error e →
      download_video env url name =
        (false, [Event.httpGet url, Event.printErr ("Error during download: " ++ e)])) ∧
    (∀ env url name text bw, pyEndsWith url ".m3u8" = true →
      env.http url = Except.ok ⟨200, text⟩ →
      selectVariant env.urljoin url text = Except.ok (none, bw) →
      downloadBody env url name = finish env none url text name [Event.httpGet url]) := by
  refine ⟨?_, ?_, ?_, ?_⟩
  · intro s ps hp hd
    simp [bandwidthOfAttrs, hp, hd]
  · intro uj url text h
    exact selectGo_zero uj url text h (splitLines text)
  · intro env url name text e h1 h2 h3
    have hres := resolveStep_direct env url h1
    simp [download_video, downloadBody, hres, h2, h3]
  · intro env url name text bw h1 h2 h3
    have hres := resolveStep_direct env url h1
    simp [downloadBody, hres, h2, h3]

/-- Environment for the C6 witness: a playlist with no variant line at
all, so the scan selects nothing and the raw text is used as the media
playlist. -/
def envC6b : Env :=
  { http := fun u =>
      if u = "http://h/d.m3u8" then Except.ok ⟨200, "x.ts"⟩ else Except.ok ⟨200, "data"⟩
    urljoin := ujSlash
    searchM3u8 := fun _ => none
    fileSize := fun _ => some 7 }

/-- C6 witness: concrete no-variant playlist — the scan returns no
selection and `downloadBody` continues with the original text as the
media playlist. -/
theorem C6_witness :
    pyEndsWith "http://h/d.m3u8" ".m3u8" = true ∧
    envC6b.http "http://h/d.m3u8" = Except.ok ⟨200, "x.ts"⟩ ∧
    selectVariant envC6b.urljoin "http://h/d.m3u8" "x.ts" = Except.ok (none, 0) ∧
    downloadBody envC6b "http://h/d.m3u8" "out.mp4" =
      finish envC6b none "http://h/d.m3u8" "x.ts" "out.mp4" [Event.httpGet "http://h/d.m3u8"] := by
  refine ⟨by decide, rfl, rfl, ?_⟩
  exact C6_amended.2.2.2 envC6b "http://h/d.m3u8" "out.mp4" "x.ts" 0 (by decide) rfl rfl

/-! ### C10 -/

/-- C10: `download_video` is the `try`/`except` closure of its body — a
raised error becomes a printed message and the return value `false`, and
a normal completion passes its boolean through; in all cases a boolean
(never an exception) reaches the caller. -/
theorem C10_total_no_exception (env : Env) (url name : String) :
    (∀ e tr, downloadBody env url name = (Except.error e, tr) →
      download_video env url name =
        (false, tr ++ [Event.printErr ("Error during download: " ++ e)])) ∧
    (∀ b tr, downloadBody env url name = (Except.ok b, tr) →
      download_video env url name = (b, tr)) := by
  constructor
  · intro e tr h; simp [download_video, h]
  · intro b tr h; simp [download_video, h]

/-- Environment whose every HTTP call raises a transport exception. -/
def envFail : Env :=
  { http := fun _ => Except.error "connection refused"
    urljoin := ujSlash
    searchM3u8 := fun _ => none
    fileSize := fun _ => none }

/-- C10 witness: a raised embed-page fetch error is caught and converted
to `false` plus a printed message. -/
theorem C10_witness :
    downloadBody envFail "page" "out.mp4" =
      (Except.error "connection refused", [Event.httpGet "page"]) ∧
    download_video envFail "page" "out.mp4" =
      (false, [Event.httpGet "page"] ++
        [Event.printErr ("Error during download: " ++ "connection refused")]) :=
  ⟨rfl, (C10_total_no_exception envFail "page" "out.mp4").1 "connection refused"
    [Event.httpGet "page"] rfl⟩

/-! ### C9 -/

/-- A pipeline tail that completes with `false` has printed the
file-check failure message. -/
theorem finish_false_print (env : Env) (bestUrl : Option String)
    (u text name : String) (tr : List Event)
    (h : (finish env bestUrl u text name tr).1 = Except.ok false) :
    ∃ m, Event.printErr m ∈ (finish env bestUrl u text name tr).2 := by
  by_cases he : tsListOf env bestUrl u text = []
  · simp [finish, he] at h
  · cases hl : (segmentLoop env (tsListOf env bestUrl u text)).1 with
    | error e => simp [finish, he, hl] at h
    | ok x =>
      by_cases hf : fileOk env name = true
      · simp [finish, he, hl, hf] at h
      · refine ⟨"Failed to create output file: " ++ name, ?_⟩
        simp [finish, he, hl, hf]

/-- Pair-equation form of the previous lemma, for use after `split`. -/
theorem finish_eq_false_print (env : Env) (bestUrl : Option String)
    (u text name : String) (tr2 tr : List Event)
    (h : finish env bestUrl u text name tr2 = (Except.ok false, tr)) :
    ∃ m, Event.printErr m ∈ tr := by
  have h1 : (finish env bestUrl u text name tr2).1 = Except.ok false := by rw [h]
  have h2 := finish_false_print env bestUrl u text name tr2 h1
  rw [h] at h2
  exact h2

/-- A body run that returns `False` normally (file check failed) has
printed an error message along the way. -/
theorem body_false_print (env : Env) (u n : String) (tr : List Event)
    (h : downloadBody env u n = (Except.ok false, tr)) :
    ∃ m, Event.printErr m ∈ tr := by
  unfold downloadBody at h
  repeat' split at h
  all_goals first
    | simp at h
    | exact finish_eq_false_print _ _ _ _ _ _ _ h

/-- A `download_video` run that reports `false` has printed an error
message: either the caught-exception print or the failed-file print. -/
theorem download_false_print (env : Env) (u n : String)
    (h : (download_video env u n).1 = false) :
    ∃ m, Event.printErr m ∈ (download_video env u n).2 := by
  cases hb : downloadBody env u n with
  | mk r tr =>
    cases r with
    | error e =>
      refine ⟨"Error during download: " ++ e, ?_⟩
      simp [download_video, hb]
    | ok b =>
      have hd : download_video env u n = (b, tr) := by simp [download_video, hb]
      rw [hd] at h ⊢
      simp at h
      subst h
      exact body_false_print env u n tr hb

/-- C9: the exit code is always 0 or 1; it is 0 exactly when the page
fetch succeeded with HTTP 200, the site extractor produced a source, and
the download pipeline reported success; and every run exiting 1 has
printed an error message. -/
theorem C9_exit_codes (menv : MainEnv) (url : String) :
    ((main_run menv url).1 = 0 ∨ (main_run menv url).1 = 1) ∧
    ((main_run menv url).1 = 0 ↔
      ∃ resp nm vu, menv.pageHttp url = Except.ok resp ∧ resp.status = 200 ∧
        extractFor menv url = Except.ok (nm, vu) ∧
        (download_video menv.dlEnv vu nm).1 = true) ∧
    ((main_run menv url).1 = 1 → ∃ m, Event.printErr m ∈ (main_run menv url).2) := by
  cases hp : menv.pageHttp url with
  | error e =>
    have hm : main_run menv url = (1, [Event.printErr ("Unexpected error: " ++ e)]) := by
      simp [main_run, hp]
    rw [hm]
    refine ⟨Or.inr rfl, ⟨fun h => by simp at h, ?_⟩,
      fun _ => ⟨"Unexpected error: " ++ e, by simp⟩⟩
    rintro ⟨resp, nm, vu, hresp, -, -, -⟩
    simp at hresp
  | ok resp =>
    by_cases hs : resp.status ≠ 200
    · have hm : main_run menv url = (1, [Event.printErr "Failed to retrieve the page"]) := by
        simp [main_run, hp, hs]
      rw [hm]
      refine ⟨Or.inr rfl, ⟨fun h => by simp at h, ?_⟩,
        fun _ => ⟨"Failed to retrieve the page", by simp⟩⟩
      rintro ⟨resp2, nm, vu, hresp, hst, -, -⟩
      injection hresp with h2
      subst h2
      exact absurd hst hs
    · have hst : resp.status = 200 := not_ne_iff.mp hs
      cases hx : extractFor menv url with
      | error e =>
        have hm : main_run menv url = (1, [Event.printErr ("Error: " ++ e)]) := by
          simp [main_run, hp, hs, hx]
        rw [hm]
        refine ⟨Or.inr rfl, ⟨fun h => by simp at h, ?_⟩,
          fun _ => ⟨"Error: " ++ e, by simp⟩⟩
        rintro ⟨resp2, nm, vu, -, -, hext, -⟩
        simp at hext
      | ok p =>
        obtain ⟨nm, vu⟩ := p
        have hm : main_run menv url =
            ((if (download_video menv.dlEnv vu nm).1 then 0 else 1),
              (download_video menv.dlEnv vu nm).2) := by
          simp [main_run, hp, hs, hx]
        by_cases hdv : (download_video menv.dlEnv vu nm).1 = true
        · have hm0 : main_run menv url = (0, (download_video menv.dlEnv vu nm).2) := by
            rw [hm, if_pos hdv]
          rw [hm0]
          refine ⟨Or.inl rfl, ⟨fun _ => ⟨resp, nm, vu, rfl, hst, rfl, hdv⟩, fun _ => rfl⟩,
            fun h1 => by simp at h1⟩
        · have hm1 : main_run menv url = (1, (download_video menv.dlEnv vu nm).2) := by
            rw [hm, if_neg hdv]
          rw [hm1]
          refine ⟨Or.inr rfl, ⟨fun h => by simp at h, ?_⟩, fun _ => ?_⟩
          · rintro ⟨resp2, nm2, vu2, hresp, -, hext, hdv2⟩
            injection hext with h3
            injection h3 with h4 h5
            subst h4
            subst h5
            exact absurd hdv2 hdv
          · have hfalse : (download_video menv.dlEnv vu nm).1 = false := by
              cases hbv : (download_video menv.dlEnv vu nm).1
              · rfl
              · exact absurd hbv hdv
            exact download_false_print menv.dlEnv vu nm hfalse

/-- Environment for the C9 witness: a one-segment media playlist that
downloads successfully into a non-empty file. -/
def envC9 : Env :=
  { http := fun u =>
      if u = "http://h/p.m3u8" then Except.ok ⟨200, "s1.ts"⟩ else Except.ok ⟨200, "data"⟩
    urljoin := ujSlash
    searchM3u8 := fun _ => none
    fileSize := fun _ => some 3 }

/-- Main-level environment for the C9 witness. -/
def menvW : MainEnv :=
  { pageHttp := fun _ => Except.ok ⟨200, "page"⟩
    extractElonetplus := Except.ok ("out.mp4", "http://h/p.m3u8")
    extractFinna := Except.error "unused"
    dlEnv := envC9 }

/-- C9 witness: a fully successful concrete run exits with code 0. -/
theorem C9_witness :
    (download_video menvW.dlEnv "http://h/p.m3u8" "out.mp4").1 = true ∧
    (main_run menvW "https://elonetplus.fi/movie").1 = 0 := by
  refine ⟨by rfl, ?_⟩
  exact (C9_exit_codes menvW "https://elonetplus.fi/movie").2.1.mpr
    ⟨⟨200, "page"⟩, "out.mp4", "http://h/p.m3u8", rfl, rfl, by rfl, by rfl⟩

end ElonetDL
